import Mathlib

/-!
Shallow embedding of `src/honggfuzz.c` (the honggfuzz driver): the signal
handler and its forced-exit helper, resource-limit provisioning, the startup
sequence of `main`, one iteration of the supervisory loop, and the shutdown
sequence of `main`.  Pure C functions become Lean functions; the global
mutable state touched by the signal handler (`sigReceived`, `showDisplay`)
becomes an explicit state record; calls into other translation units
(`fuzz_shouldTerminate`, `display_display`, `fuzz_threadsStart`, ...) become
oracle parameters or emitted events.
-/

/-! Section: Signal numbers and exit codes (Linux/x86-64, `<signal.h>`, `<stdlib.h>`) -/

def SIGINT : Nat := 2
def SIGQUIT : Nat := 3
def SIGALRM : Nat := 14
def SIGTERM : Nat := 15
def SIGPIPE : Nat := 13
def SIGIO : Nat := 29
def SIGCHLD : Nat := 17

def EXIT_SUCCESS : Nat := 0
def EXIT_FAILURE : Nat := 1

/-- The three stop-type signals handled by the driver (terminate, interrupt,
quit), i.e. those for which `sigHandler` records `sigReceived`. -/
def stopSignals : List Nat := [SIGTERM, SIGINT, SIGQUIT]

/-! Section: Shutdown actions of `main` (lines 246-261)

The vocabulary of observable shutdown effects.  `unmapFeedback` /
`closeFeedbackFd` are in the vocabulary so that claims about releasing the
feedback-channel mapping can be stated; whether the code ever emits them is
exactly what those claims are about. -/

inductive ShutdownAction where
  | setTerminating        -- fuzz_setTerminating()
  | threadsStop           -- fuzz_threadsStop(&hfuzz, threads): stop + join
  | freeBlacklist         -- free(hfuzz.feedback.blacklist)
  | freeSymsBl            -- free(hfuzz.linux.symsBl)
  | freeSymsWl            -- free(hfuzz.linux.symsWl)
  | cleanupSocket         -- cleanupSocketFuzzer()
  | unmapFeedback         -- munmap(hfuzz.feedback.feedbackMap, ...)
  | closeFeedbackFd       -- close(hfuzz.feedback.bbFd)
deriving DecidableEq, Repr

/-! Section: `exitWithMsg` (lines 55-59) -/

/-- The observable effect of a process exit initiated inside the driver:
the raw `write(2)` calls made to stderr, the shutdown actions performed
before exiting, and the exit status. -/
structure ExitEffect where
  writes : List String
  actions : List ShutdownAction
  exitCode : Nat
deriving DecidableEq, Repr

/-- `exitWithMsg(msg, exit_code)`: one raw `write` of `msg` to stderr, then
`exit(exit_code)`.  No cleanup is performed (the trailing `abort()` is
unreachable). -/
def exitWithMsg (msg : String) (exit_code : Nat) : ExitEffect :=
  { writes := [msg], actions := [], exitCode := exit_code }

def forcefulMsg : String := "Terminating forcefully\n"
def repeatedMsg : String := "Repeated termination signal caugth\n"

/-! Section: `sigHandler` (lines 61-77) -/

/-- The globals read and written by `sigHandler`:
`static int sigReceived` (0 = no stop signal recorded yet) and
`static bool showDisplay`. -/
structure SigState where
  sigReceived : Nat
  showDisplay : Bool
deriving DecidableEq, Repr

/-- Result of one run of the signal handler: either the process exited from
inside the handler (with the given effect), or the handler returned with an
updated global state. -/
inductive HandlerResult where
  | exited (eff : ExitEffect)
  | returned (st : SigState)
deriving DecidableEq, Repr

/-- `sigHandler(sig)`.  `fuzzShouldTerminate` is the value the external
predicate `fuzz_shouldTerminate()` would return at this moment (its body
lives in `fuzz.c`, outside the source handled in this file). -/
def sigHandler (fuzzShouldTerminate : Bool) (st : SigState) (sig : Nat) :
    HandlerResult :=
  if sig = SIGALRM then
    if fuzzShouldTerminate then
      .exited (exitWithMsg forcefulMsg EXIT_FAILURE)
    else
      .returned { st with showDisplay := true }
  else
    if st.sigReceived ≠ 0 then
      .exited (exitWithMsg repeatedMsg EXIT_FAILURE)
    else
      .returned { st with sigReceived := sig }

/-- Deliver a list of signals one after another (with the external
`fuzz_shouldTerminate` predicate held fixed): stops at the first delivery
that exits the process. -/
def deliverAll (fuzzShouldTerminate : Bool) (st : SigState) :
    List Nat → Sum ExitEffect SigState
  | [] => .inr st
  | sig :: rest =>
    match sigHandler fuzzShouldTerminate st sig with
    | .exited eff => .inl eff
    | .returned st2 => deliverAll fuzzShouldTerminate st2 rest

/-! Section: `setupRLimits` (lines 79-97) -/

/-- Non-fatal diagnostics `setupRLimits` can emit. -/
inductive RLimitLog where
  | warnGetrlimit      -- PLOG_W("getrlimit(RLIMIT_NOFILE)")
  | errMaxTooLow       -- LOG_E("RLIMIT_NOFILE max limit < 1024 ...")
  | errSetrlimit       -- PLOG_E buffer message for a failed setrlimit
deriving DecidableEq, Repr

/-- Outcome of `setupRLimits`: the resulting soft/hard RLIMIT_NOFILE pair,
the diagnostics emitted, and whether the call aborted the run. -/
structure RLimitOutcome where
  soft : Nat
  hard : Nat
  logs : List RLimitLog
  fatal : Bool
deriving DecidableEq, Repr

/-- `setupRLimits()`.  `getOk` / `setOk` model whether the `getrlimit` /
`setrlimit` system calls succeed; `soft` / `hard` are the current
`rlim_cur` / `rlim_max` for RLIMIT_NOFILE.  A failed `setrlimit` leaves the
OS limits unchanged. -/
def setupRLimits (getOk : Bool) (soft hard : Nat) (setOk : Bool) :
    RLimitOutcome :=
  if !getOk then
    { soft := soft, hard := hard, logs := [.warnGetrlimit], fatal := false }
  else if soft ≥ 1024 then
    { soft := soft, hard := hard, logs := [], fatal := false }
  else if hard < 1024 then
    { soft := soft, hard := hard, logs := [.errMaxTooLow], fatal := false }
  else
    let newCur := min 1024 hard
    if setOk then
      { soft := newCur, hard := hard, logs := [], fatal := false }
    else
      { soft := soft, hard := hard, logs := [.errSetrlimit], fatal := false }

/-! Section: Signal routing (lines 109-153) -/

/-- The signal set blocked on the whole process by
`setupSignalsPreThreads()` before any worker thread exists (worker threads
inherit this mask). -/
def setupSignalsPreThreadsBlocked : List Nat :=
  [SIGTERM, SIGINT, SIGQUIT, SIGALRM, SIGPIPE, SIGIO, SIGCHLD]

/-- The signals for which `setupSignalsMainThread()` installs `sigHandler`
via `sigaction`. -/
def setupSignalsMainThreadHandled : List Nat :=
  [SIGTERM, SIGINT, SIGQUIT, SIGALRM]

/-- The signal set `setupSignalsMainThread()` unblocks on the control
thread after the worker pool has been started. -/
def setupSignalsMainThreadUnblocked : List Nat :=
  [SIGTERM, SIGINT, SIGQUIT, SIGALRM]

/-! Section: Startup sequence of `main` (lines 155-224) -/

/-- Observable startup steps of `main`, in source order. -/
inductive StartupStep where
  | displayInit           -- display_init()
  | setupSocketFuzzer     -- setupSocketFuzzer(&hfuzz)
  | inputInit             -- input_init(&hfuzz)
  | parseDictionary       -- input_parseDictionary(&hfuzz)
  | parseBlacklist        -- input_parseBlacklist(&hfuzz)
  | parseSymsBl           -- files_parseSymbolFilter(symsBlFile, ...)
  | parseSymsWl           -- files_parseSymbolFilter(symsWlFile, ...)
  | mapSharedMem          -- files_mapSharedMem(sizeof(feedback_t), ...)
  | rlimits               -- setupRLimits()
  | signalsPreThreads     -- setupSignalsPreThreads()
  | threadsStart          -- fuzz_threadsStart(&hfuzz, threads)
  | signalsMainThread     -- setupSignalsMainThread()
  | mainThreadTimer       -- setupMainThreadTimer()
deriving DecidableEq, Repr

/-- Configuration and external-call outcomes that decide the startup
control flow.  `parse...Ok` fields model the success of the corresponding
loader; they matter only when the matching file/flag is present. -/
structure MainConfig where
  cmdlineOk : Bool          -- cmdlineParse(...) succeeded
  useScreen : Bool          -- hfuzz.display.useScreen
  socketEnabled : Bool      -- hfuzz.socketFuzzer.enabled
  inputInitOk : Bool        -- input_init(&hfuzz) succeeded
  hasDictionaryFile : Bool  -- hfuzz.mutate.dictionaryFile != NULL
  parseDictionaryOk : Bool
  hasBlacklistFile : Bool   -- hfuzz.feedback.blacklistFile != NULL
  parseBlacklistOk : Bool
  hasSymsBlFile : Bool      -- hfuzz.linux.symsBlFile != NULL
  parseSymsBlOk : Bool      -- files_parseSymbolFilter returned != 0
  hasSymsWlFile : Bool
  parseSymsWlOk : Bool
  dynFileMethodNone : Bool  -- hfuzz.feedback.dynFileMethod == _HF_DYNFILE_NONE
  mapSharedMemOk : Bool     -- files_mapSharedMem(...) returned non-NULL
deriving DecidableEq, Repr

/-- One guarded startup step: if `enabled`, attempt it and abort with
`exit(EXIT_FAILURE)` (via `LOG_F`) when it fails, else continue with `k`.
Models the `if (cond && !ok) LOG_F(...)` pattern of `main`. -/
def stepIf (t : List StartupStep) (enabled ok : Bool) (s : StartupStep)
    (k : List StartupStep → List StartupStep × Option Nat) :
    List StartupStep × Option Nat :=
  if enabled then
    if ok then k (t ++ [s]) else (t ++ [s], some EXIT_FAILURE)
  else k t

/-- Startup portion of `main` (lines 170-224): the trace of startup steps
performed, paired with `some exitCode` when startup aborted (every fatal
startup error goes through `LOG_F`/`exit(EXIT_FAILURE)`) and `none` when
the run reached the supervisory loop. -/
def mainStartup (c : MainConfig) : List StartupStep × Option Nat :=
  if !c.cmdlineOk then ([], some EXIT_FAILURE) else
  let t0 := if c.useScreen then [StartupStep.displayInit] else []
  let rest := fun (t : List StartupStep) =>
    stepIf t c.hasDictionaryFile c.parseDictionaryOk .parseDictionary fun t =>
    stepIf t c.hasBlacklistFile c.parseBlacklistOk .parseBlacklist fun t =>
    stepIf t c.hasSymsBlFile c.parseSymsBlOk .parseSymsBl fun t =>
    stepIf t c.hasSymsWlFile c.parseSymsWlOk .parseSymsWl fun t =>
    stepIf t (!c.dynFileMethodNone) c.mapSharedMemOk .mapSharedMem fun t =>
    (t ++ [StartupStep.rlimits, .signalsPreThreads, .threadsStart,
           .signalsMainThread, .mainThreadTimer], none)
  if c.socketEnabled then
    rest (t0 ++ [.setupSocketFuzzer])
  else if c.inputInitOk then
    rest (t0 ++ [.inputInit])
  else
    (t0 ++ [.inputInit], some EXIT_FAILURE)

/-! Section: Supervisory loop of `main` (lines 226-244) -/

/-- State read by one iteration of the `for (;;)` loop: the relevant
`hfuzz` fields plus the handler globals.  `sigReceived`/`threadsFinished`
are mutated asynchronously (signal handler / workers); within one
iteration the loop reads them as modelled here. -/
structure LoopState where
  useScreen : Bool        -- hfuzz.display.useScreen
  showDisplay : Bool      -- static bool showDisplay
  sigReceived : Nat       -- static int sigReceived
  threadsFinished : Nat   -- hfuzz.threads.threadsFinished
  threadsMax : Nat        -- hfuzz.threads.threadsMax
  runEndTime : Nat        -- hfuzz.timing.runEndTime (0 = unbounded)
deriving DecidableEq, Repr

/-- Observable events of one loop iteration, in the order performed. -/
inductive LoopEvent where
  | displayRender                 -- display_display(&hfuzz)
  | logSignalReceived (sig : Nat) -- LOG_I("Signal %d (%s) received, terminating")
  | logMaxRunTime                 -- LOG_I("Maximum run time reached, terminating")
  | pauseCall                     -- pause()
deriving DecidableEq, Repr

/-- Whether the loop iteration ended in `break` or fell through to the next
iteration. -/
inductive LoopOutcome where
  | breakLoop
  | continueLoop
deriving DecidableEq, Repr

/-- One iteration of the supervisory loop, at wall-clock time `now`
(the value `time(NULL)` returns): the events performed, the outcome, and
the updated state. -/
def loopIter (st : LoopState) (now : Nat) :
    List LoopEvent × LoopOutcome × LoopState :=
  let (evs0, st0) :=
    if st.useScreen && st.showDisplay then
      ([LoopEvent.displayRender], { st with showDisplay := false })
    else ([], st)
  if st.sigReceived > 0 then
    (evs0 ++ [.logSignalReceived st.sigReceived], .breakLoop, st0)
  else if st.threadsFinished ≥ st.threadsMax then
    (evs0, .breakLoop, st0)
  else if st.runEndTime > 0 && now > st.runEndTime then
    (evs0 ++ [.logMaxRunTime], .breakLoop, st0)
  else
    (evs0 ++ [.pauseCall], .continueLoop, st0)

/-- Run the supervisory loop with the asynchronous inputs frozen (no signal
arrives, no worker finishes, the clock reads `now`): iterate `loopIter`
until it breaks, or give up after `fuel` iterations (`none` models the loop
still blocked in `pause()`). -/
def runLoop : Nat → LoopState → Nat → Option (List LoopEvent × LoopState)
  | 0, _, _ => none
  | fuel + 1, st, now =>
    match loopIter st now with
    | (evs, .breakLoop, st2) => some (evs, st2)
    | (evs, .continueLoop, st2) =>
      (runLoop fuel st2 now).map fun p => (evs ++ p.1, p.2)

/-! Section: Shutdown sequence of `main` (lines 246-263) -/

/-- Which optional resources exist at shutdown time.  `hasFeedbackMap`
records whether the feedback-channel mapping was created at startup; the
cleanup code of `main` does not consult it, which is precisely what the
feedback-channel release claims are about. -/
structure ShutdownConfig where
  hasBlacklist : Bool     -- hfuzz.feedback.blacklist != NULL
  hasSymsBl : Bool        -- hfuzz.linux.symsBl != NULL
  hasSymsWl : Bool        -- hfuzz.linux.symsWl != NULL
  socketEnabled : Bool    -- hfuzz.socketFuzzer.enabled
  hasFeedbackMap : Bool   -- hfuzz.feedback.feedbackMap != NULL
deriving DecidableEq, Repr

/-- The shutdown tail of `main` after the loop breaks (lines 246-263): the
actions performed in order, and the value returned from `main`. -/
def mainShutdown (sc : ShutdownConfig) : List ShutdownAction × Nat :=
  ([ShutdownAction.setTerminating, .threadsStop]
    ++ (if sc.hasBlacklist then [ShutdownAction.freeBlacklist] else [])
    ++ (if sc.hasSymsBl then [ShutdownAction.freeSymsBl] else [])
    ++ (if sc.hasSymsWl then [ShutdownAction.freeSymsWl] else [])
    ++ (if sc.socketEnabled then [ShutdownAction.cleanupSocket] else []),
   EXIT_SUCCESS)

/-- The supervisory loop followed by the shutdown tail, with asynchronous
inputs frozen as in `runLoop`: `none` when the loop never breaks within
`fuel` iterations, otherwise the loop events, the shutdown actions, and the
exit status of the process. -/
def mainLoopShutdown (fuel : Nat) (st : LoopState) (now : Nat)
    (sc : ShutdownConfig) :
    Option (List LoopEvent × List ShutdownAction × Nat) :=
  (runLoop fuel st now).map fun p => (p.1, (mainShutdown sc).1, (mainShutdown sc).2)

/-! Section: Helper lemmas -/

lemma loopIter_sig_break (ls : LoopState) (now : Nat) (h : 0 < ls.sigReceived) :
    (loopIter ls now).2.1 = .breakLoop ∧
    LoopEvent.logSignalReceived ls.sigReceived ∈ (loopIter ls now).1 ∧
    LoopEvent.pauseCall ∉ (loopIter ls now).1 := by
  unfold loopIter
  by_cases hd : ls.useScreen && ls.showDisplay <;> simp [hd, h]

lemma sigHandler_stop_fresh (ft : Bool) (st : SigState) (s : Nat)
    (hs : s ∈ stopSignals) (h0 : st.sigReceived = 0) :
    sigHandler ft st s = .returned { st with sigReceived := s } := by
  simp only [stopSignals, List.mem_cons, List.not_mem_nil, or_false] at hs
  rcases hs with rfl | rfl | rfl
  all_goals simp [sigHandler, SIGTERM, SIGINT, SIGQUIT, SIGALRM, h0]

/-- C1. A stop-type signal delivered while a stop signal is already
recorded (`sigReceived != 0`) makes the handler exit the process at once
via `exitWithMsg`: one raw write of the fixed message, failure status, no
terminating-flag store, no pool stop/join, no cleanup actions. -/
theorem second_stop_signal_exits_without_cleanup (ft : Bool) (st : SigState)
    (s : Nat) (hs : s ∈ stopSignals) (h : st.sigReceived ≠ 0) :
    sigHandler ft st s = .exited (exitWithMsg repeatedMsg EXIT_FAILURE) ∧
    (exitWithMsg repeatedMsg EXIT_FAILURE).actions = [] ∧
    ShutdownAction.setTerminating ∉ (exitWithMsg repeatedMsg EXIT_FAILURE).actions ∧
    ShutdownAction.threadsStop ∉ (exitWithMsg repeatedMsg EXIT_FAILURE).actions ∧
    (exitWithMsg repeatedMsg EXIT_FAILURE).writes = [repeatedMsg] ∧
    (exitWithMsg repeatedMsg EXIT_FAILURE).exitCode ≠ EXIT_SUCCESS := by
  refine ⟨?_, by simp [exitWithMsg], by simp [exitWithMsg], by simp [exitWithMsg],
    by simp [exitWithMsg], by simp [exitWithMsg, EXIT_FAILURE, EXIT_SUCCESS]⟩
  simp only [stopSignals, List.mem_cons, List.not_mem_nil, or_false] at hs
  rcases hs with rfl | rfl | rfl
  all_goals simp [sigHandler, SIGTERM, SIGINT, SIGQUIT, SIGALRM, h]

/-- Witness for C1: interrupt delivered while terminate is already recorded. -/
theorem second_stop_signal_exits_without_cleanup_witness :
    sigHandler false ⟨15, false⟩ SIGINT =
      .exited (exitWithMsg repeatedMsg EXIT_FAILURE) ∧
    (exitWithMsg repeatedMsg EXIT_FAILURE).actions = [] ∧
    ShutdownAction.setTerminating ∉ (exitWithMsg repeatedMsg EXIT_FAILURE).actions ∧
    ShutdownAction.threadsStop ∉ (exitWithMsg repeatedMsg EXIT_FAILURE).actions ∧
    (exitWithMsg repeatedMsg EXIT_FAILURE).writes = [repeatedMsg] ∧
    (exitWithMsg repeatedMsg EXIT_FAILURE).exitCode ≠ EXIT_SUCCESS :=
  second_stop_signal_exits_without_cleanup false ⟨15, false⟩ SIGINT
    (by decide) (by decide)

lemma deliverAll_alrm_preserves (sigs : List Nat) :
    ∀ st : SigState, (∀ x ∈ sigs, x = SIGALRM) →
      Sum.elim (fun _ => False)
        (fun st2 => st2.sigReceived = st.sigReceived)
        (deliverAll false st sigs) := by
  induction sigs with
  | nil => intro st _; simp [deliverAll]
  | cons sig rest ih =>
    intro st hall
    have hsig : sig = SIGALRM := hall sig (by simp)
    subst hsig
    have hstep : sigHandler false st SIGALRM =
        .returned { st with showDisplay := true } := by
      simp [sigHandler]
    have := ih { st with showDisplay := true } (fun x hx => hall x (by simp [hx]))
    simpa [deliverAll, hstep] using this

/-- C3. The watchdog signal (SIGALRM) never records a stop request:
when `fuzz_shouldTerminate()` holds the handler exits the process at once
with a raw write and failure status; otherwise it only sets the
display-refresh flag and returns with `sigReceived` unchanged, and any
sequence of SIGALRM deliveries leaves the recorded-signal state unchanged. -/
theorem sigalrm_never_records_stop (ft : Bool) (st : SigState) :
    (ft = true →
      sigHandler ft st SIGALRM = .exited (exitWithMsg forcefulMsg EXIT_FAILURE)) ∧
    (ft = false →
      sigHandler ft st SIGALRM = .returned { st with showDisplay := true } ∧
      (SigState.mk st.sigReceived true).sigReceived = st.sigReceived) ∧
    (∀ sigs : List Nat, (∀ x ∈ sigs, x = SIGALRM) →
      Sum.elim (fun _ => False)
        (fun st2 => st2.sigReceived = st.sigReceived)
        (deliverAll false st sigs)) := by
  refine ⟨?_, ?_, fun sigs hall => deliverAll_alrm_preserves sigs st hall⟩
  · intro hft; subst hft; simp [sigHandler]
  · intro hft; subst hft
    constructor
    · simp [sigHandler]
    · rfl

/-- Witness for C3: at a concrete state with a stop signal already pending,
SIGALRM only sets the display flag when the predicate is false, and exits
when the predicate is true. -/
theorem sigalrm_never_records_stop_witness :
    sigHandler false ⟨2, false⟩ SIGALRM = .returned ⟨2, true⟩ ∧
    sigHandler true ⟨2, false⟩ SIGALRM =
      .exited (exitWithMsg forcefulMsg EXIT_FAILURE) :=
  ⟨((sigalrm_never_records_stop false ⟨2, false⟩).2.1 rfl).1,
   (sigalrm_never_records_stop true ⟨2, false⟩).1 rfl⟩

/-- C4. A stop-type signal delivered while no stop signal is recorded
(`sigReceived == 0`) is recorded exactly as its own identifier, the
recorded value is nonzero, and a supervisory-loop iteration that reads it
breaks out of the loop after logging which signal caused the stop —
uniformly for terminate, interrupt and quit. -/
theorem first_stop_signal_recorded_and_observed (ft : Bool) (st : SigState)
    (s : Nat) (hs : s ∈ stopSignals) (h0 : st.sigReceived = 0) :
    sigHandler ft st s = .returned { st with sigReceived := s } ∧
    s ≠ 0 ∧
    (∀ (ls : LoopState) (now : Nat), ls.sigReceived = s →
      (loopIter ls now).2.1 = .breakLoop ∧
      LoopEvent.logSignalReceived s ∈ (loopIter ls now).1 ∧
      LoopEvent.pauseCall ∉ (loopIter ls now).1) := by
  have hne : s ≠ 0 := by
    simp only [stopSignals, List.mem_cons, List.not_mem_nil, or_false] at hs
    rcases hs with rfl | rfl | rfl <;> simp [SIGTERM, SIGINT, SIGQUIT]
  refine ⟨sigHandler_stop_fresh ft st s hs h0, hne, ?_⟩
  intro ls now hls
  have hpos : 0 < ls.sigReceived := by omega
  have := loopIter_sig_break ls now hpos
  rwa [hls] at this

/-- Witness for C4: SIGQUIT delivered at the initial state is recorded, and
a loop iteration reading it breaks with the diagnostic log. -/
theorem first_stop_signal_recorded_and_observed_witness :
    sigHandler false ⟨0, true⟩ SIGQUIT = .returned ⟨SIGQUIT, true⟩ ∧
    SIGQUIT ≠ 0 ∧
    (∀ (ls : LoopState) (now : Nat), ls.sigReceived = SIGQUIT →
      (loopIter ls now).2.1 = .breakLoop ∧
      LoopEvent.logSignalReceived SIGQUIT ∈ (loopIter ls now).1 ∧
      LoopEvent.pauseCall ∉ (loopIter ls now).1) :=
  first_stop_signal_recorded_and_observed false ⟨0, true⟩ SIGQUIT
    (by decide) (by decide)

/-- C5. Full case analysis of `setupRLimits`: soft limit already at the
1024 floor means no change; hard limit below the floor means a non-fatal
diagnostic and no change; otherwise the soft limit becomes
`min(1024, hard)`; and a failing `getrlimit`/`setrlimit` is logged while
the run never aborts (`fatal` is `false` on every path). -/
theorem setupRLimits_cases (getOk : Bool) (soft hard : Nat) (setOk : Bool) :
    (setupRLimits getOk soft hard setOk).fatal = false ∧
    (getOk = false →
      setupRLimits getOk soft hard setOk =
        ⟨soft, hard, [.warnGetrlimit], false⟩) ∧
    (getOk = true → 1024 ≤ soft →
      setupRLimits getOk soft hard setOk = ⟨soft, hard, [], false⟩) ∧
    (getOk = true → soft < 1024 → hard < 1024 →
      setupRLimits getOk soft hard setOk = ⟨soft, hard, [.errMaxTooLow], false⟩) ∧
    (getOk = true → soft < 1024 → 1024 ≤ hard → setOk = true →
      setupRLimits getOk soft hard setOk = ⟨min 1024 hard, hard, [], false⟩) ∧
    (getOk = true → soft < 1024 → 1024 ≤ hard → setOk = false →
      setupRLimits getOk soft hard setOk = ⟨soft, hard, [.errSetrlimit], false⟩) := by
  unfold setupRLimits
  rcases getOk with _ | _ <;> rcases setOk with _ | _ <;>
    constructor <;>
    · simp only [Bool.not_true, Bool.not_false]
      split_ifs <;> simp_all

/-- Witness for C5: soft limit 10, hard limit 4096, both syscalls succeed:
the soft limit is raised to 1024 and nothing fatal happens. -/
theorem setupRLimits_cases_witness :
    (setupRLimits true 10 4096 true).fatal = false ∧
    setupRLimits true 10 4096 true = ⟨min 1024 4096, 4096, [], false⟩ :=
  ⟨(setupRLimits_cases true 10 4096 true).1,
   (setupRLimits_cases true 10 4096 true).2.2.2.2.1 rfl (by omega) (by omega) rfl⟩

/-- C10. Both forced-exit paths — watchdog escalation when
`fuzz_shouldTerminate()` holds, and a repeated stop-type signal — exit with
failure status after a single raw write of a fixed message and no cleanup
actions; every exit taken inside `sigHandler` carries failure status; and
the normal shutdown path of `main` returns success. -/
theorem forced_exits_fail_normal_exit_succeeds (ft : Bool) (st : SigState)
    (sig : Nat) (sc : ShutdownConfig) :
    (ft = true →
      sigHandler true st SIGALRM = .exited (exitWithMsg forcefulMsg EXIT_FAILURE)) ∧
    (sig ≠ SIGALRM → st.sigReceived ≠ 0 →
      sigHandler ft st sig = .exited (exitWithMsg repeatedMsg EXIT_FAILURE)) ∧
    (∀ msg code, (exitWithMsg msg code).writes = [msg] ∧
      (exitWithMsg msg code).actions = []) ∧
    EXIT_FAILURE ≠ EXIT_SUCCESS ∧
    (mainShutdown sc).2 = EXIT_SUCCESS ∧
    (∀ eff, sigHandler ft st sig = .exited eff → eff.exitCode = EXIT_FAILURE) := by
  refine ⟨fun _ => by simp [sigHandler], ?_, fun msg code => ⟨rfl, rfl⟩,
    by decide, rfl, ?_⟩
  · intro hne h0
    simp [sigHandler, hne, h0]
  · intro eff heff
    unfold sigHandler at heff
    split_ifs at heff <;> simp_all [exitWithMsg] <;> rw [← heff]

/-- Witness for C10: both forced paths at concrete inputs, and a concrete
shutdown configuration returning success. -/
theorem forced_exits_fail_normal_exit_succeeds_witness :
    sigHandler true ⟨0, false⟩ SIGALRM =
      .exited (exitWithMsg forcefulMsg EXIT_FAILURE) ∧
    sigHandler true ⟨15, false⟩ SIGINT =
      .exited (exitWithMsg repeatedMsg EXIT_FAILURE) ∧
    (mainShutdown ⟨true, false, false, false, true⟩).2 = EXIT_SUCCESS :=
  ⟨(forced_exits_fail_normal_exit_succeeds true ⟨0, false⟩ SIGINT
      ⟨true, false, false, false, true⟩).1 rfl,
   (forced_exits_fail_normal_exit_succeeds true ⟨15, false⟩ SIGINT
      ⟨true, false, false, false, true⟩).2.1 (by decide) (by decide),
   (forced_exits_fail_normal_exit_succeeds true ⟨15, false⟩ SIGINT
      ⟨true, false, false, false, true⟩).2.2.2.2.1⟩

/-- C7. One iteration of the supervisory loop performs its checks in
source order: display refresh first (when requested and enabled, the render
comes first and the request flag is cleared), then the recorded-signal
check (break with the signal log, shadowing every later check), then the
finished-worker check (break silently, shadowing the deadline check), then
the deadline check (break with the max-run-time log), and otherwise the
iteration ends in a blocking `pause()` as its last event. -/
theorem loop_checks_in_order (st : LoopState) (now : Nat) :
    (st.useScreen = true → st.showDisplay = true →
      (loopIter st now).1.head? = some .displayRender ∧
      (loopIter st now).2.2.showDisplay = false) ∧
    ((st.useScreen && st.showDisplay) = false →
      LoopEvent.displayRender ∉ (loopIter st now).1 ∧
      (loopIter st now).2.2 = st) ∧
    (0 < st.sigReceived →
      (loopIter st now).2.1 = .breakLoop ∧
      LoopEvent.logSignalReceived st.sigReceived ∈ (loopIter st now).1 ∧
      LoopEvent.pauseCall ∉ (loopIter st now).1) ∧
    (st.sigReceived = 0 → st.threadsMax ≤ st.threadsFinished →
      (loopIter st now).2.1 = .breakLoop ∧
      LoopEvent.logMaxRunTime ∉ (loopIter st now).1 ∧
      (∀ s, LoopEvent.logSignalReceived s ∉ (loopIter st now).1) ∧
      LoopEvent.pauseCall ∉ (loopIter st now).1) ∧
    (st.sigReceived = 0 → st.threadsFinished < st.threadsMax →
      0 < st.runEndTime → st.runEndTime < now →
      (loopIter st now).2.1 = .breakLoop ∧
      LoopEvent.logMaxRunTime ∈ (loopIter st now).1 ∧
      LoopEvent.pauseCall ∉ (loopIter st now).1) ∧
    (st.sigReceived = 0 → st.threadsFinished < st.threadsMax →
      (st.runEndTime = 0 ∨ now ≤ st.runEndTime) →
      (loopIter st now).2.1 = .continueLoop ∧
      (loopIter st now).1.getLast? = some .pauseCall) := by
  refine ⟨?_, ?_, ?_, ?_, ?_, ?_⟩
  · intro h1 h2
    unfold loopIter
    simp only [h1, h2, Bool.and_self, if_true]
    split_ifs <;> simp
  · intro hd
    unfold loopIter
    simp only [hd, Bool.false_eq_true, if_false]
    split_ifs <;> simp
  · intro hsig
    exact loopIter_sig_break st now hsig
  · intro hsig hfin
    unfold loopIter
    have hle : st.threadsMax ≤ st.threadsFinished := hfin
    by_cases hd : st.useScreen && st.showDisplay <;>
      simp [hd, hsig, hle]
  · intro hsig hfin hend hnow
    unfold loopIter
    have h1 : ¬ st.threadsMax ≤ st.threadsFinished := by omega
    have h2 : (decide (0 < st.runEndTime) && decide (st.runEndTime < now)) = true := by
      simp [hend, hnow]
    by_cases hd : st.useScreen && st.showDisplay <;>
      simp [hd, hsig, h1, hend, hnow]
  · intro hsig hfin hno
    unfold loopIter
    have h1 : ¬ st.threadsMax ≤ st.threadsFinished := by omega
    have h2 : ¬ (0 < st.runEndTime ∧ st.runEndTime < now) := by omega
    by_cases hd : st.useScreen && st.showDisplay <;>
      simp [hd, hsig, h1, h2]

/-- Witness for C7: with screen enabled, a refresh requested and signal 3
recorded, the iteration renders first, then breaks with the signal log. -/
theorem loop_checks_in_order_witness :
    (loopIter ⟨true, true, 3, 0, 4, 0⟩ 0).1.head? = some .displayRender ∧
    (loopIter ⟨true, true, 3, 0, 4, 0⟩ 0).2.1 = .breakLoop ∧
    LoopEvent.logSignalReceived 3 ∈ (loopIter ⟨true, true, 3, 0, 4, 0⟩ 0).1 :=
  ⟨((loop_checks_in_order ⟨true, true, 3, 0, 4, 0⟩ 0).1 rfl rfl).1,
   ((loop_checks_in_order ⟨true, true, 3, 0, 4, 0⟩ 0).2.2.1 (by decide)).1,
   ((loop_checks_in_order ⟨true, true, 3, 0, 4, 0⟩ 0).2.2.1 (by decide)).2.1⟩

/-- C9. With a configured deadline strictly in the past at loop entry
and no signal recorded, the supervisory loop breaks on its very first
iteration with no `pause()` call, and the run then performs
`fuzz_setTerminating`, `fuzz_threadsStop` (stop + join) and returns
success from `main`. -/
theorem deadline_past_breaks_first_iteration (st : LoopState) (now : Nat)
    (sc : ShutdownConfig) (hsig : st.sigReceived = 0)
    (hend : 0 < st.runEndTime) (hnow : st.runEndTime < now) :
    mainLoopShutdown 1 st now sc =
      some ((loopIter st now).1, (mainShutdown sc).1, EXIT_SUCCESS) ∧
    LoopEvent.pauseCall ∉ (loopIter st now).1 ∧
    (mainShutdown sc).1.take 2 =
      [ShutdownAction.setTerminating, ShutdownAction.threadsStop] ∧
    EXIT_SUCCESS = 0 := by
  have hbreak : (loopIter st now).2.1 = .breakLoop ∧
      LoopEvent.pauseCall ∉ (loopIter st now).1 := by
    unfold loopIter
    by_cases hfin : st.threadsMax ≤ st.threadsFinished <;>
      by_cases hd : st.useScreen && st.showDisplay <;>
      simp [hd, hsig, hfin, hend, hnow]
  refine ⟨?_, hbreak.2, rfl, rfl⟩
  rcases hL : loopIter st now with ⟨evs, out, st2⟩
  have hout : out = .breakLoop := by
    have := hbreak.1; rwa [hL] at this
  subst hout
  simp only [mainLoopShutdown, runLoop, hL, Option.map_some]
  rfl

/-- Witness for C9: four workers, deadline 5, clock at 7: the loop breaks
immediately and shutdown returns success. -/
theorem deadline_past_breaks_first_iteration_witness :
    mainLoopShutdown 1 ⟨false, false, 0, 0, 4, 5⟩ 7 ⟨true, false, false, false, true⟩ =
      some ((loopIter ⟨false, false, 0, 0, 4, 5⟩ 7).1,
        (mainShutdown ⟨true, false, false, false, true⟩).1, EXIT_SUCCESS) ∧
    LoopEvent.pauseCall ∉ (loopIter ⟨false, false, 0, 0, 4, 5⟩ 7).1 ∧
    (mainShutdown ⟨true, false, false, false, true⟩).1.take 2 =
      [ShutdownAction.setTerminating, ShutdownAction.threadsStop] ∧
    EXIT_SUCCESS = 0 :=
  deadline_past_breaks_first_iteration ⟨false, false, 0, 0, 4, 5⟩ 7
    ⟨true, false, false, false, true⟩ rfl (by decide) (by decide)

/-- Counterexample for C2 as stated: at a shutdown where the feedback
mapping exists (together with blacklist and symbol-filter buffers), the
graceful exit path of `main` performs zero unmap actions and zero
descriptor-close actions on the feedback channel — not exactly one of
each. -/
theorem feedback_channel_release_counterexample :
    ¬(List.count ShutdownAction.unmapFeedback
        (mainShutdown ⟨true, true, true, false, true⟩).1 = 1 ∧
      List.count ShutdownAction.closeFeedbackFd
        (mainShutdown ⟨true, true, true, false, true⟩).1 = 1) := by
  decide

/-- C2 (amended). On the graceful exit path, `main` frees the
blacklist and each symbol-filter buffer exactly once when allocated,
returns success, and performs no explicit unmap or descriptor close of the
feedback-channel mapping (it is released implicitly by process
termination). -/
theorem shutdown_releases_buffers_not_feedback_channel (sc : ShutdownConfig) :
    (mainShutdown sc).2 = EXIT_SUCCESS ∧
    List.count ShutdownAction.freeBlacklist (mainShutdown sc).1 =
      (if sc.hasBlacklist then 1 else 0) ∧
    List.count ShutdownAction.freeSymsBl (mainShutdown sc).1 =
      (if sc.hasSymsBl then 1 else 0) ∧
    List.count ShutdownAction.freeSymsWl (mainShutdown sc).1 =
      (if sc.hasSymsWl then 1 else 0) ∧
    List.count ShutdownAction.cleanupSocket (mainShutdown sc).1 =
      (if sc.socketEnabled then 1 else 0) ∧
    ShutdownAction.unmapFeedback ∉ (mainShutdown sc).1 ∧
    ShutdownAction.closeFeedbackFd ∉ (mainShutdown sc).1 ∧
    (mainShutdown sc).1.take 2 =
      [ShutdownAction.setTerminating, ShutdownAction.threadsStop] := by
  rcases sc with ⟨b1, b2, b3, b4, b5⟩
  revert b1 b2 b3 b4 b5
  decide

set_option maxRecDepth 100000 in
set_option synthInstance.maxSize 4000 in
set_option synthInstance.maxHeartbeats 4000000 in
set_option maxHeartbeats 4000000 in
/-- C6. In every startup that reaches the feedback-channel step (the
command line parsed, the corpus loaded or the socket fuzzer active, and
every configured dictionary/blacklist/symbol-filter file parsed), the
channel is created iff the feedback method is not `_HF_DYNFILE_NONE`; a
creation failure aborts startup with failure status before
`fuzz_threadsStart`; and on success the mapping step precedes the
worker-pool start step. -/
theorem feedback_channel_created_iff_required (c : MainConfig)
    (h1 : c.cmdlineOk = true)
    (h2 : c.socketEnabled = true ∨ c.inputInitOk = true)
    (h3 : c.hasDictionaryFile = true → c.parseDictionaryOk = true)
    (h4 : c.hasBlacklistFile = true → c.parseBlacklistOk = true)
    (h5 : c.hasSymsBlFile = true → c.parseSymsBlOk = true)
    (h6 : c.hasSymsWlFile = true → c.parseSymsWlOk = true) :
    ((StartupStep.mapSharedMem ∈ (mainStartup c).1) ↔ c.dynFileMethodNone = false) ∧
    (c.dynFileMethodNone = false → c.mapSharedMemOk = false →
      (mainStartup c).2 = some EXIT_FAILURE ∧
      StartupStep.threadsStart ∉ (mainStartup c).1) ∧
    (c.dynFileMethodNone = false → c.mapSharedMemOk = true →
      (mainStartup c).2 = none ∧
      List.count StartupStep.mapSharedMem (mainStartup c).1 = 1 ∧
      StartupStep.threadsStart ∈ (mainStartup c).1 ∧
      (mainStartup c).1.indexOf StartupStep.mapSharedMem <
        (mainStartup c).1.indexOf StartupStep.threadsStart) := by
  rcases c with ⟨a1, a2, a3, a4, a5, a6, a7, a8, a9, a10, a11, a12, a13, a14⟩
  revert h1 h2 h3 h4 h5 h6
  revert a1 a2 a3 a4 a5 a6 a7 a8 a9 a10 a11 a12 a13 a14
  decide

/-- Witness for C6: a minimal configuration with feedback required and the
mapping succeeding. -/
theorem feedback_channel_created_iff_required_witness :
    ((StartupStep.mapSharedMem ∈
        (mainStartup ⟨true, false, false, true, false, true, false, true,
          false, true, false, true, false, true⟩).1) ↔ false = false) ∧
    (false = false → true = true →
      (mainStartup ⟨true, false, false, true, false, true, false, true,
        false, true, false, true, false, true⟩).2 = none ∧
      List.count StartupStep.mapSharedMem
        (mainStartup ⟨true, false, false, true, false, true, false, true,
          false, true, false, true, false, true⟩).1 = 1 ∧
      StartupStep.threadsStart ∈
        (mainStartup ⟨true, false, false, true, false, true, false, true,
          false, true, false, true, false, true⟩).1 ∧
      (mainStartup ⟨true, false, false, true, false, true, false, true,
          false, true, false, true, false, true⟩).1.indexOf
          StartupStep.mapSharedMem <
        (mainStartup ⟨true, false, false, true, false, true, false, true,
          false, true, false, true, false, true⟩).1.indexOf
          StartupStep.threadsStart) :=
  ⟨(feedback_channel_created_iff_required
      ⟨true, false, false, true, false, true, false, true, false, true,
        false, true, false, true⟩ rfl (Or.inr rfl) (by decide) (by decide)
      (by decide) (by decide)).1,
   fun _ _ =>
    (feedback_channel_created_iff_required
      ⟨true, false, false, true, false, true, false, true, false, true,
        false, true, false, true⟩ rfl (Or.inr rfl) (by decide) (by decide)
      (by decide) (by decide)).2.2 rfl rfl⟩

set_option maxRecDepth 100000 in
set_option synthInstance.maxSize 4000 in
set_option synthInstance.maxHeartbeats 4000000 in
set_option maxHeartbeats 4000000 in
/-- C8. In every run that reaches worker startup, process-wide signal
blocking (`setupSignalsPreThreads`, inherited by the future worker
threads) happens exactly once and strictly before `fuzz_threadsStart`, and
the control-thread handler installation plus unblocking
(`setupSignalsMainThread`) happens exactly once and strictly after it;
moreover every signal unblocked on the control thread — exactly the
handled state-machine signals terminate/interrupt/quit plus the watchdog —
is among the signals blocked before the threads were created. -/
theorem signals_blocked_before_threads_unblocked_after (c : MainConfig)
    (h : StartupStep.threadsStart ∈ (mainStartup c).1) :
    List.count StartupStep.signalsPreThreads (mainStartup c).1 = 1 ∧
    List.count StartupStep.threadsStart (mainStartup c).1 = 1 ∧
    List.count StartupStep.signalsMainThread (mainStartup c).1 = 1 ∧
    (mainStartup c).1.indexOf StartupStep.signalsPreThreads <
      (mainStartup c).1.indexOf StartupStep.threadsStart ∧
    (mainStartup c).1.indexOf StartupStep.threadsStart <
      (mainStartup c).1.indexOf StartupStep.signalsMainThread ∧
    (∀ s ∈ setupSignalsMainThreadUnblocked, s ∈ setupSignalsPreThreadsBlocked) ∧
    (∀ s ∈ stopSignals, s ∈ setupSignalsPreThreadsBlocked) ∧
    SIGALRM ∈ setupSignalsPreThreadsBlocked ∧
    setupSignalsMainThreadHandled = setupSignalsMainThreadUnblocked := by
  rcases c with ⟨a1, a2, a3, a4, a5, a6, a7, a8, a9, a10, a11, a12, a13, a14⟩
  revert h
  revert a1 a2 a3 a4 a5 a6 a7 a8 a9 a10 a11 a12 a13 a14
  decide

/-- Witness for C8: the default all-enabled configuration reaches worker
startup with the required ordering. -/
theorem signals_blocked_before_threads_unblocked_after_witness :
    List.count StartupStep.signalsPreThreads
      (mainStartup ⟨true, true, false, true, true, true, true, true, true,
        true, true, true, false, true⟩).1 = 1 ∧
    List.count StartupStep.threadsStart
      (mainStartup ⟨true, true, false, true, true, true, true, true, true,
        true, true, true, false, true⟩).1 = 1 ∧
    List.count StartupStep.signalsMainThread
      (mainStartup ⟨true, true, false, true, true, true, true, true, true,
        true, true, true, false, true⟩).1 = 1 ∧
    (mainStartup ⟨true, true, false, true, true, true, true, true, true,
        true, true, true, false, true⟩).1.indexOf StartupStep.signalsPreThreads <
      (mainStartup ⟨true, true, false, true, true, true, true, true, true,
        true, true, true, false, true⟩).1.indexOf StartupStep.threadsStart ∧
    (mainStartup ⟨true, true, false, true, true, true, true, true, true,
        true, true, true, false, true⟩).1.indexOf StartupStep.threadsStart <
      (mainStartup ⟨true, true, false, true, true, true, true, true, true,
        true, true, true, false, true⟩).1.indexOf StartupStep.signalsMainThread ∧
    (∀ s ∈ setupSignalsMainThreadUnblocked, s ∈ setupSignalsPreThreadsBlocked) ∧
    (∀ s ∈ stopSignals, s ∈ setupSignalsPreThreadsBlocked) ∧
    SIGALRM ∈ setupSignalsPreThreadsBlocked ∧
    setupSignalsMainThreadHandled = setupSignalsMainThreadUnblocked :=
  signals_blocked_before_threads_unblocked_after
    ⟨true, true, false, true, true, true, true, true, true, true, true,
      true, false, true⟩ (by decide)
